import Mathlib

/-!
Shallow embedding of `totally_reset_cursor.py`.

Paths are modelled lexically, the way `pathlib.PurePath` treats them: a path
is its list of components (the implicit filesystem root is shared by all
absolute paths in play).  `pathlib` drops `.` components at construction and
keeps `..` components un-resolved, so a component list may contain `".."`.
`Path.is_relative_to` / `Path.relative_to` are purely lexical (component-list
prefix / drop), `str` of a relative path joins components with the OS
separator (and renders the empty relative path as "."), and
`Path.parent` drops the last component (so the parent of `.` and of `..`
is `.`).
-/

namespace Cursor

abbrev PathC := List String

/-- `str(relative_path)` for a relative path given as its component list:
the empty list (pathlib's `Path('.')`) prints as ".", otherwise the
components are joined with the OS separator. -/
def strOfRel (sep : String) (rel : PathC) : String :=
  match rel with
  | [] => "."
  | _ => String.intercalate sep rel

/-- Python's `s.startswith(base)`: the characters of `base` are a prefix of
the characters of `s`. -/
def startswith (s base : String) : Bool :=
  base.data.isPrefixOf s.data

/-- The `EXPECTED_BASES` dictionary of the script. -/
def EXPECTED_BASES : List (String × List String) :=
  [("Windows", ["AppData\\Roaming", "AppData\\Local"]),
   ("Darwin", ["Library/Application Support", "Library/Caches", "Library/Preferences",
               "Library/Saved Application State", "Library/HTTPStorages"]),
   ("Linux", [".config", ".cache", ".local/share"])]

/-- The Linux entry of `EXPECTED_BASES`. -/
def linuxBases : List String := (EXPECTED_BASES.lookup "Linux").getD []

/-- `is_safe_to_delete(path_to_delete, home_dir, allowed_bases)`.

Mirrors the source line by line:
* `if not path_to_delete.is_relative_to(home_dir): return False`
  (`is_relative_to` is the lexical component-prefix test);
* `relative_path = path_to_delete.relative_to(home_dir)` (drop the prefix);
* `if not any(str(relative_path).startswith(base) for base in allowed_bases):`
  `  if relative_path.parent != Path('.'): return False`
  (`relative_path.parent` drops the last component, and equals `Path('.')`
  exactly when the list of remaining components after that drop is empty);
* `return True`.
The `except` arms of the source (ValueError / generic) are unreachable in
this pure lexical model: `relative_to` cannot fail once `is_relative_to`
succeeded. -/
def is_safe_to_delete (path_to_delete home_dir : PathC) (allowed_bases : List String)
    (sep : String) : Bool :=
  if ¬ (home_dir <+: path_to_delete) then false
  else
    let relative_path := path_to_delete.drop home_dir.length
    if ¬ (allowed_bases.any fun base => startswith (strOfRel sep relative_path) base) then
      if relative_path.dropLast ≠ [] then false
      else true
    else true

/-- Resolution of `..` components (what `os.path.normpath` / `Path.resolve`
would do to a symlink-free path): fold left, `".."` popping the last
component.  Used to state what "outside the trust root" means physically. -/
def resolveComponents (p : PathC) : PathC :=
  p.foldl (fun acc c => if c = ".." then acc.dropLast else acc ++ [c]) []

/-- A resolved path `c` lies outside the subtree rooted at (resolved) `home`. -/
def outsideTrustRoot (c home : PathC) : Prop :=
  ¬ (resolveComponents home <+: resolveComponents c)

instance (c home : PathC) : Decidable (outsideTrustRoot c home) := by
  unfold outsideTrustRoot; infer_instance

/-! ### Filesystem model and the guarded remover -/

/-- What kind of object sits at a path (the type dispatch of `remove_path`:
`is_file() or is_symlink()` / `is_dir()` / anything else). -/
inductive Node
  | file
  | symlink
  | dir
  | other
  deriving DecidableEq, Repr

/-- A filesystem snapshot: an association list from absolute paths to the
kind of object living there. -/
abbrev FS := List (PathC × Node)

/-- First-match association-list lookup. -/
def lookupPath {α : Type} : List (PathC × α) → PathC → Option α
  | [], _ => none
  | (q, a) :: rest, p => if q = p then some a else lookupPath rest p

/-- `path_to_delete.exists()`. -/
def FS.pathExists (fs : FS) (p : PathC) : Bool :=
  (lookupPath fs p).isSome

/-- `path_to_delete.unlink()`: remove the entry at exactly `p`. -/
def FS.unlink (fs : FS) (p : PathC) : FS :=
  fs.filter (fun e => decide (e.1 ≠ p))

/-- `shutil.rmtree(path_to_delete)`: remove `p` and everything below it. -/
def FS.rmtree (fs : FS) (p : PathC) : FS :=
  fs.filter (fun e => decide (¬ (p <+: e.1)))

/-- The Python exceptions the `except` arms of `remove_path` distinguish,
in the order they are tried (`FileNotFoundError` and `PermissionError` are
`OSError` subclasses, so the source's ordering is what makes them
distinguishable). -/
inductive PyExc
  | fileNotFoundError
  | permissionError
  | osError (reason : String)
  | otherExc (msg : String)
  deriving DecidableEq, Repr

/-- The per-candidate deletion outcome (the spec's
{deleted, skipped-unsafe, skipped-absent, failed(reason)} taxonomy, with the
failure reasons the source's `except` arms report). -/
inductive Outcome
  | deletedFile
  | deletedDir
  | skippedAbsent
  | skippedUnsafe
  | skippedOther
  | alreadyGone
  | permissionDenied
  | osFailure (reason : String)
  | unexpectedError (msg : String)
  deriving DecidableEq, Repr

/-- The `except` chain of `remove_path`: FileNotFoundError → "Path already
gone", PermissionError → "Permission denied", OSError → "OS error" with the
reason, anything else → "Unexpected error". -/
def classifyExc : PyExc → Outcome
  | .fileNotFoundError => .alreadyGone
  | .permissionError => .permissionDenied
  | .osError r => .osFailure r
  | .otherExc m => .unexpectedError m

/-- `remove_path(path_to_delete, home_dir, allowed_bases)`.

`mutErr` is the environment's choice of whether the mutation attempted inside
the `try` block raises (`some e`) or succeeds (`none`); the source catches
every such exception, so the function is total and returns an outcome in
every case.  Mirrors the source:
* `if not path_to_delete or not path_to_delete.exists(): return`
  (skipped-absent; a `Path` object is always truthy, so only the existence
  test matters here);
* `if not is_safe_to_delete(...): return` (skipped-unsafe);
* `try:` file-or-symlink → `unlink`, directory → `shutil.rmtree`,
  anything else → "Skipping non-file/dir" with no mutation;
* `except` chain → `classifyExc`. -/
def remove_path (path_to_delete home_dir : PathC) (allowed_bases : List String)
    (sep : String) (fs : FS) (mutErr : Option PyExc) : Outcome × FS :=
  if ¬ fs.pathExists path_to_delete then (.skippedAbsent, fs)
  else if ¬ is_safe_to_delete path_to_delete home_dir allowed_bases sep then
    (.skippedUnsafe, fs)
  else
    match lookupPath fs path_to_delete with
    | some .file =>
      match mutErr with
      | none => (.deletedFile, fs.unlink path_to_delete)
      | some e => (classifyExc e, fs)
    | some .symlink =>
      match mutErr with
      | none => (.deletedFile, fs.unlink path_to_delete)
      | some e => (classifyExc e, fs)
    | some .dir =>
      match mutErr with
      | none => (.deletedDir, fs.rmtree path_to_delete)
      | some e => (classifyExc e, fs)
    | _ => (.skippedOther, fs)

/-- The sweep loops of `reset_cursor`: `for path in ...: remove_path(path,
home_dir, allowed_bases)`.  Each candidate is processed in order with its own
mutation-error choice; the outcome list collects one outcome per candidate. -/
def sweep (home_dir : PathC) (allowed_bases : List String) (sep : String) :
    List PathC → FS → List (Option PyExc) → List Outcome × FS
  | [], fs, _ => ([], fs)
  | c :: cs, fs, errs =>
    let r := remove_path c home_dir allowed_bases sep fs errs.headI
    let rest := sweep home_dir allowed_bases sep cs r.2 errs.tail
    (r.1 :: rest.1, rest.2)

/-! ### File creation -/

/-- A filesystem snapshot for the creation routines: which directories
exist, and the full text content of each regular file. -/
structure CFS where
  dirs : List PathC
  files : List (PathC × String)
  deriving Repr

/-- All component-prefixes of `p` (from the root down to `p` itself). -/
def prefixesOf (p : PathC) : List PathC :=
  (List.range (p.length + 1)).map (fun n => p.take n)

/-- `path.parent.mkdir(parents=True, exist_ok=True)`: the parent directory
and every intermediate ancestor exist afterwards. -/
def CFS.mkdirParents (fs : CFS) (parentDir : PathC) : CFS :=
  { fs with dirs := prefixesOf parentDir ++ fs.dirs }

/-- `path.write_text(content)`: the file at `p` now holds exactly
`content`. -/
def CFS.writeText (fs : CFS) (p : PathC) (content : String) : CFS :=
  { fs with files := (p, content) :: fs.files.filter (fun e => decide (e.1 ≠ p)) }

/-- Read back a file's full content. -/
def CFS.readFile (fs : CFS) (p : PathC) : Option String :=
  lookupPath fs.files p

/-- `create_file_with_content(path, content, description)` (success path):
ensure the parent directory exists (creating intermediate directories), then
write the full content. -/
def create_file_with_content (p : PathC) (content : String) (fs : CFS) : CFS :=
  (fs.mkdirParents p.dropLast).writeText p content

/-- `create_new_machine_id(path)`: `new_id = str(uuid.uuid4())` is the fresh
random token handed in by the environment; the file's entire content is that
token. -/
def create_new_machine_id (p : PathC) (new_id : String) (fs : CFS) : CFS :=
  create_file_with_content p new_id fs

/-! ### Trial info -/

/-- Python's `int(x)` on a rational: truncation toward zero. -/
def intTrunc (q : ℚ) : Int :=
  if q < 0 then -(Int.floor (-q)) else Int.floor q

/-- The structured record `new_trial_data` of `create_new_trial_info`,
with its stable field names. -/
structure TrialData where
  trialStartTimestamp : Int
  trialEndTimestamp : Int
  hasUsedTrial : Bool
  machineId : String
  deriving DecidableEq, Repr

/-- `create_new_trial_info(path)` (the record-building part):
`now` is `datetime.now().timestamp()` in seconds (a rational standing for
the float), `freshId` is the `str(uuid.uuid4())` token drawn by the
environment.  `future_date = now + timedelta(days=90)` adds 90·86400
seconds; both timestamps are `int(t * 1000)` milliseconds; the
`hasUsedTrial` flag is written as `False`. -/
def create_new_trial_info (now : ℚ) (freshId : String) : TrialData :=
  let future := now + 90 * 86400
  { trialStartTimestamp := intTrunc (now * 1000)
  , trialEndTimestamp := intTrunc (future * 1000)
  , hasUsedTrial := false
  , machineId := freshId }

/-- Split a character list on a separator character (structural recursion,
used to state which component subtree an allowed base denotes). -/
def splitCharsOn (c : Char) : List Char → List (List Char)
  | [] => [[]]
  | ch :: rest =>
    let r := splitCharsOn c rest
    if ch = c then [] :: r
    else
      match r with
      | [] => [[ch]]
      | g :: gs => (ch :: g) :: gs

/-- The path components an allowed base string denotes (split on the
separator character). -/
def componentsOf (sep : Char) (s : String) : List String :=
  (splitCharsOn sep s.data).map String.mk

/-! ### Helper lemmas -/

theorem drop_length_append (h r : PathC) : (h ++ r).drop h.length = r := by
  induction h with
  | nil => simp
  | cons a t ih => simp [ih]

theorem take_length_append (a b : PathC) : (a ++ b).take a.length = a := by
  induction a with
  | nil => simp
  | cons x t ih => simp [ih]

theorem mem_prefixesOf {q r : PathC} (h : q <+: r) : q ∈ prefixesOf r := by
  obtain ⟨t, ht⟩ := h
  subst ht
  unfold prefixesOf
  refine List.mem_map.mpr ⟨q.length, List.mem_range.mpr ?_, take_length_append q t⟩
  simp [List.length_append]
  omega

/-! ### Claim theorems: the safety gate -/

/-- C1: the claim that every candidate outside the trust root is rejected
fails on the code.  The candidate
`trust_root/.config/../../etc/passwd` resolves outside the trust root, yet
`is_safe_to_delete` returns true for it, because the lexical containment
test keeps `..` components and the relative path's string form
`.config/../../etc/passwd` starts with the allowed base `.config`.  The
spec's own example `trust_root/../etc/passwd` does return false. -/
theorem escape_judged_safe :
    outsideTrustRoot ["home", "user", ".config", "..", "..", "etc", "passwd"] ["home", "user"] ∧
    is_safe_to_delete ["home", "user", ".config", "..", "..", "etc", "passwd"]
      ["home", "user"] linuxBases "/" = true ∧
    is_safe_to_delete ["home", "user", "..", "etc", "passwd"]
      ["home", "user"] linuxBases "/" = false := by
  refine ⟨by decide, by decide, by decide⟩

/-- C3: the claim that a candidate equal to the trust root is rejected fails
on the code: containment is non-strict, the relative path is `.`, whose
parent is again `.`, so the direct-child carve-out fires and
`is_safe_to_delete` returns true for the trust root itself — for every
choice of trust root, allowed bases and separator. -/
theorem trust_root_itself_judged_safe (home : PathC) (bases : List String) (sep : String) :
    is_safe_to_delete home home bases sep = true := by
  unfold is_safe_to_delete
  rw [if_neg (not_not_intro ⟨[], List.append_nil home⟩)]
  simp [List.drop_length]

/-- C5: the direct-child carve-out: a candidate whose relative path to the
trust root is a single component is judged safe whatever the allowed bases
(and in particular when no allowed base matches). -/
theorem direct_child_is_safe (home : PathC) (name : String) (bases : List String)
    (sep : String) :
    is_safe_to_delete (home ++ [name]) home bases sep = true := by
  unfold is_safe_to_delete
  rw [if_neg (not_not_intro ⟨[name], rfl⟩)]
  simp [drop_length_append]

/-- C4: a candidate under the trust root whose relative path's string form
starts with some allowed base is judged safe. -/
theorem allowed_base_match_is_safe (home rel : PathC) (bases : List String) (sep : String)
    (h : bases.any (fun base => startswith (strOfRel sep rel) base) = true) :
    is_safe_to_delete (home ++ rel) home bases sep = true := by
  unfold is_safe_to_delete
  rw [if_neg (not_not_intro ⟨rel, rfl⟩)]
  simp [drop_length_append, h]

/-- C4 witness: `trust_root/.config/Cursor` under Linux allowed bases. -/
theorem allowed_base_match_is_safe_witness :
    linuxBases.any (fun base => startswith (strOfRel "/" [".config", "Cursor"]) base) = true ∧
    is_safe_to_delete (["home", "user"] ++ [".config", "Cursor"]) ["home", "user"]
      linuxBases "/" = true :=
  ⟨by decide,
   allowed_base_match_is_safe ["home", "user"] [".config", "Cursor"] linuxBases "/" (by decide)⟩

/-- C10: the allowed-base test compares string forms, not path components:
there is a candidate under the trust root that is not a direct child and
lies in none of the allowed Linux subtrees (component-wise), yet is judged
safe — `trust_root/.cache_other/data`, whose string form starts with the
allowed base `.cache`.  The claim's own sibling example
`trust_root/.cache_other` is also judged safe. -/
theorem allowed_base_laxity :
    (∃ home c : PathC,
      home <+: c ∧
      (c.drop home.length).dropLast ≠ [] ∧
      (∀ b ∈ linuxBases, ¬ (componentsOf '/' b <+: c.drop home.length)) ∧
      is_safe_to_delete c home linuxBases "/" = true) ∧
    is_safe_to_delete ["home", "user", ".cache_other"] ["home", "user"] linuxBases "/" = true := by
  refine ⟨⟨["home", "user"], ["home", "user", ".cache_other", "data"],
    ?_, ?_, ?_, ?_⟩, ?_⟩ <;> decide

/-! ### Claim theorems: the guarded remover -/

/-- C2: on an existing candidate rejected by the safety gate, `remove_path`
returns skipped-unsafe and the filesystem is left exactly as it was,
whatever mutation error the environment had in store. -/
theorem remove_path_unsafe_is_noop (p home : PathC) (bases : List String) (sep : String)
    (fs : FS) (err : Option PyExc)
    (hex : fs.pathExists p = true)
    (hgate : is_safe_to_delete p home bases sep = false) :
    remove_path p home bases sep fs err = (.skippedUnsafe, fs) := by
  unfold remove_path
  simp [hex, hgate]

/-- C2 witness: an existing `/etc/passwd` entry with trust root
`/home/user`. -/
theorem remove_path_unsafe_is_noop_witness :
    FS.pathExists [(["etc", "passwd"], Node.file)] ["etc", "passwd"] = true ∧
    is_safe_to_delete ["etc", "passwd"] ["home", "user"] linuxBases "/" = false ∧
    remove_path ["etc", "passwd"] ["home", "user"] linuxBases "/"
        [(["etc", "passwd"], Node.file)] none
      = (Outcome.skippedUnsafe, [(["etc", "passwd"], Node.file)]) :=
  ⟨by decide, by decide,
   remove_path_unsafe_is_noop ["etc", "passwd"] ["home", "user"] linuxBases "/"
     [(["etc", "passwd"], Node.file)] none (by decide) (by decide)⟩

/-- C6: on a candidate that does not exist, `remove_path` is a no-op decided
by the existence test alone: it returns skipped-absent and the unchanged
filesystem, for every trust root, allowed bases and mutation-error choice
(no speculative deletion is attempted). -/
theorem remove_path_absent_is_noop (p home : PathC) (bases : List String) (sep : String)
    (fs : FS) (err : Option PyExc)
    (hab : fs.pathExists p = false) :
    remove_path p home bases sep fs err = (.skippedAbsent, fs) := by
  unfold remove_path
  simp [hab]

/-- C6 witness: the empty filesystem. -/
theorem remove_path_absent_is_noop_witness :
    FS.pathExists [] ["home", "user", ".config", "Cursor"] = false ∧
    remove_path ["home", "user", ".config", "Cursor"] ["home", "user"] linuxBases "/" []
        (some PyExc.permissionError)
      = (Outcome.skippedAbsent, []) :=
  ⟨by decide,
   remove_path_absent_is_noop ["home", "user", ".config", "Cursor"] ["home", "user"]
     linuxBases "/" [] (some PyExc.permissionError) (by decide)⟩

/-- C7: every mutation error raised while deleting an existing, safe
file/symlink/directory candidate is caught by `remove_path` and mapped to an
outcome by `classifyExc`; `classifyExc` is injective (already-gone,
permission-denied, OS failure with its reason and unexpected error stay
distinguishable); and the sweep loop always produces one outcome per
candidate — no candidate's failure aborts the remaining candidates. -/
theorem remove_path_catches_all :
    (∀ (p home : PathC) (bases : List String) (sep : String) (fs : FS) (e : PyExc),
      fs.pathExists p = true →
      is_safe_to_delete p home bases sep = true →
      lookupPath fs p ≠ some Node.other →
      remove_path p home bases sep fs (some e) = (classifyExc e, fs)) ∧
    Function.Injective classifyExc ∧
    (∀ (home : PathC) (bases : List String) (sep : String) (cs : List PathC)
      (fs : FS) (errs : List (Option PyExc)),
      (sweep home bases sep cs fs errs).1.length = cs.length) := by
  refine ⟨?_, ?_, ?_⟩
  · intro p home bases sep fs e hex hsafe hother
    unfold remove_path
    rw [if_neg (by simp [hex]), if_neg (by simp [hsafe])]
    rcases hk : lookupPath fs p with _ | k
    · exact absurd hex (by simp [FS.pathExists, hk])
    · cases k <;> simp_all
  · intro a b hab
    cases a <;> cases b <;> simp_all [classifyExc]
  · intro home bases sep cs
    induction cs with
    | nil => intro fs errs; rfl
    | cons c cs ih => intro fs errs; simp [sweep, ih]

/-- C7 witness: a permission error while deleting an existing, safe
directory is reported as permission-denied. -/
theorem remove_path_catches_all_witness :
    remove_path ["home", "user", ".config", "Cursor"] ["home", "user"] linuxBases "/"
        [(["home", "user", ".config", "Cursor"], Node.dir)] (some PyExc.permissionError)
      = (classifyExc PyExc.permissionError,
         [(["home", "user", ".config", "Cursor"], Node.dir)]) :=
  remove_path_catches_all.1 ["home", "user", ".config", "Cursor"] ["home", "user"]
    linuxBases "/" [(["home", "user", ".config", "Cursor"], Node.dir)]
    PyExc.permissionError (by decide) (by decide) (by decide)

/-! ### Claim theorems: file creation and trial info -/

/-- C8: the trial record always carries an end timestamp exactly 90 days
(in milliseconds) after the start timestamp, a `hasUsedTrial` flag that is
false, and the freshly drawn token, for every (non-negative) creation
time. -/
theorem trial_record_end_is_start_plus_90_days (now : ℚ) (freshId : String) (h : 0 ≤ now) :
    (create_new_trial_info now freshId).trialEndTimestamp
      = (create_new_trial_info now freshId).trialStartTimestamp + 90 * 86400 * 1000 ∧
    (create_new_trial_info now freshId).hasUsedTrial = false ∧
    (create_new_trial_info now freshId).machineId = freshId := by
  refine ⟨?_, rfl, rfl⟩
  show intTrunc ((now + 90 * 86400) * 1000) = intTrunc (now * 1000) + 90 * 86400 * 1000
  have h1 : (0 : ℚ) ≤ now * 1000 := mul_nonneg h (by norm_num)
  have h2 : (0 : ℚ) ≤ (now + 90 * 86400) * 1000 :=
    mul_nonneg (by linarith) (by norm_num)
  rw [intTrunc, intTrunc, if_neg (not_lt.mpr h2), if_neg (not_lt.mpr h1)]
  have hsum : (now + 90 * 86400) * 1000 = now * 1000 + ((90 * 86400 * 1000 : ℤ) : ℚ) := by
    push_cast
    ring
  rw [hsum, Int.floor_add_int]

/-- C8 witness: creation at epoch time 0. -/
theorem trial_record_end_is_start_plus_90_days_witness :
    (0 : ℚ) ≤ 0 ∧
    ((create_new_trial_info 0 "token").trialEndTimestamp
       = (create_new_trial_info 0 "token").trialStartTimestamp + 90 * 86400 * 1000 ∧
     (create_new_trial_info 0 "token").hasUsedTrial = false ∧
     (create_new_trial_info 0 "token").machineId = "token") :=
  ⟨le_refl 0, trial_record_end_is_start_plus_90_days 0 "token" (le_refl 0)⟩

/-- C9: `create_file_with_content` ensures every ancestor of the target (up
to and including its parent directory) exists as a directory and then writes
the full content at the target; `create_new_machine_id` leaves a file whose
entire content is the fresh token. -/
theorem create_writes_full_content (p : PathC) (content : String) (fs : CFS)
    (new_id : String) :
    (∀ q : PathC, q <+: p.dropLast → q ∈ (create_file_with_content p content fs).dirs) ∧
    (create_file_with_content p content fs).readFile p = some content ∧
    (create_new_machine_id p new_id fs).readFile p = some new_id := by
  refine ⟨?_, ?_, ?_⟩
  · intro q hq
    simp only [create_file_with_content, CFS.writeText, CFS.mkdirParents, List.mem_append]
    exact Or.inl (mem_prefixesOf hq)
  · simp [create_file_with_content, CFS.writeText, CFS.mkdirParents, CFS.readFile, lookupPath]
  · simp [create_new_machine_id, create_file_with_content, CFS.writeText, CFS.mkdirParents,
      CFS.readFile, lookupPath]

/-- C9 witness: creating the Linux `machineid` file in an empty filesystem
creates the `.config` ancestor directory and writes the token. -/
theorem create_writes_full_content_witness :
    ([".config"] : PathC) <+: ([".config", "Cursor", "machineid"] : PathC).dropLast ∧
    ([".config"] : PathC)
      ∈ (create_file_with_content [".config", "Cursor", "machineid"] "tok" ⟨[], []⟩).dirs :=
  ⟨by decide,
   (create_writes_full_content [".config", "Cursor", "machineid"] "tok" ⟨[], []⟩ "tok").1
     [".config"] (by decide)⟩

end Cursor
